import Mathlib

/-!
Shallow embedding of the entity-form logic of the sui-eco-dir-admin-fe
admin dashboard.  The project and video form controllers are modelled as
pure functions: the zod schema check becomes a function returning the
list of fields in error, and each `onSubmit` pipeline becomes a function
from the draft, the staged files and an environment (the results the
remote API would return for each call) to the sequence of external calls
issued (a trace), the final outcome, and the final loading flag.
URL well-formedness (zod's `.url()`) is an external library check and is
kept abstract: every statement is quantified over an arbitrary checker
`urlOk : String → Bool`.
-/

namespace SuiAdmin

/-- Publication status of a project (types module: PUBLISHED | UNPUBLISHED). -/
inductive Status
  | published
  | unpublished
  deriving DecidableEq, Repr

/-- Flags selecting which social platforms are included (schema field
`includeSocialLinks`). -/
structure IncludeSocialLinks where
  website : Bool
  twitter : Bool
  github : Bool
  discord : Bool
  telegram : Bool
  deriving DecidableEq, Repr

/-- Per-platform social link URL values (schema field `socialLinks`). -/
structure SocialLinks where
  website : String
  twitter : String
  github : String
  discord : String
  telegram : String
  deriving DecidableEq, Repr

/-- The project form draft, mirroring the fields of `projectSchema`
(ProjectForm, lines 474-544). -/
structure ProjectFormData where
  name : String
  tagline : String
  description : String
  categories : List String
  website : String
  isHiring : Bool
  careerPageUrl : String
  isOpenForBounty : Bool
  bountySubmissionUrl : String
  isOpenSource : Bool
  githubUrl : String
  includeSocialLinks : IncludeSocialLinks
  socialLinks : SocialLinks
  featured : Bool
  status : Status
  deriving DecidableEq, Repr

/-- Field identifiers for project-schema validation errors. -/
inductive ProjField
  | name
  | tagline
  | description
  | categories
  | website
  | careerPageUrl
  | bountySubmissionUrl
  | githubUrl
  | socialWebsite
  | socialTwitter
  | socialGithub
  | socialDiscord
  | socialTelegram
  deriving DecidableEq, Repr

/-- zod combinator `z.string().url(..).optional().or(z.literal(""))`:
the value passes when it is empty or the URL checker accepts it. -/
def urlOptionalOk (urlOk : String → Bool) (s : String) : Bool :=
  urlOk s || s == ""

/-- Emit a field error when the condition holds. -/
def errIf (c : Prop) [Decidable c] (f : ProjField) : List ProjField :=
  if c then [f] else []

/-- The `projectSchema` check (ProjectForm, lines 474-544): the list of
fields in error for a draft.  `z.string().min(1)` rejects the empty
string, the description needs at least 10 characters, the category array
needs at least one element, and each URL field accepts the empty string
or a well-formed URL.  The boolean flags, `includeSocialLinks`,
`featured` and `status` carry no constraints.  The draft is accepted
exactly when the returned list is empty. -/
def projectSchema (urlOk : String → Bool) (d : ProjectFormData) : List ProjField :=
  errIf (d.name.length < 1) ProjField.name ++
  errIf (d.tagline.length < 1) ProjField.tagline ++
  errIf (d.description.length < 10) ProjField.description ++
  errIf (d.categories.length < 1) ProjField.categories ++
  errIf (urlOptionalOk urlOk d.website = false) ProjField.website ++
  errIf (urlOptionalOk urlOk d.careerPageUrl = false) ProjField.careerPageUrl ++
  errIf (urlOptionalOk urlOk d.bountySubmissionUrl = false) ProjField.bountySubmissionUrl ++
  errIf (urlOptionalOk urlOk d.githubUrl = false) ProjField.githubUrl ++
  errIf (urlOptionalOk urlOk d.socialLinks.website = false) ProjField.socialWebsite ++
  errIf (urlOptionalOk urlOk d.socialLinks.twitter = false) ProjField.socialTwitter ++
  errIf (urlOptionalOk urlOk d.socialLinks.github = false) ProjField.socialGithub ++
  errIf (urlOptionalOk urlOk d.socialLinks.discord = false) ProjField.socialDiscord ++
  errIf (urlOptionalOk urlOk d.socialLinks.telegram = false) ProjField.socialTelegram

/-- A draft passes validation when the schema reports no field errors. -/
def projectValid (urlOk : String → Bool) (d : ProjectFormData) : Bool :=
  projectSchema urlOk d == []

/-- Category toggle (ProjectForm, lines 755-762): remove the name when
present (JS `filter(cat => cat !== categoryName)`), append it otherwise. -/
def toggleCategory (selectedCategories : List String) (categoryName : String) : List String :=
  if selectedCategories.contains categoryName then
    selectedCategories.filter (fun cat => cat != categoryName)
  else
    selectedCategories ++ [categoryName]

/-- JS truthiness of an optional string (`!!x`): present and non-empty. -/
def truthyOpt (o : Option String) : Bool :=
  match o with
  | some s => s != ""
  | none => false

/-- Social links of a stored project as returned by the backend
(types module, `Project.socialLinks`, nullable per platform). -/
structure StoredSocial where
  website : Option String
  twitter : Option String
  github : Option String
  discord : Option String
  telegram : Option String
  deriving DecidableEq, Repr

/-- A stored project as fetched from the API, restricted to the fields
`fetchProject` copies into the form (types module, `Project`). -/
structure StoredProject where
  name : String
  tagline : String
  description : String
  categories : List String
  featured : Bool
  status : Status
  isHiring : Bool
  careerPageUrl : Option String
  isOpenForBounty : Bool
  bountySubmissionUrl : Option String
  isOpenSource : Bool
  githubUrl : Option String
  socialLinks : Option StoredSocial
  deriving DecidableEq, Repr

/-- JS `a || ""` on an optional string. -/
def orEmpty (o : Option String) : String :=
  match o with
  | some s => s
  | none => ""

/-- Load-for-edit (ProjectForm `fetchProject`, lines 639-702): the draft
after the fetched project is copied into the form.  Each governing
boolean is set to `stored flag || !!stored URL`, each URL to
`stored URL || ""`, and the social-link include boxes to the truthiness
of the stored per-platform values (`project.socialLinks` or empty). -/
def fetchProject (d0 : ProjectFormData) (p : StoredProject) : ProjectFormData :=
  let social := match p.socialLinks with
    | some s => s
    | none => { website := none, twitter := none, github := none,
                discord := none, telegram := none }
  { d0 with
    name := p.name
    tagline := p.tagline
    description := p.description
    categories := p.categories
    featured := p.featured
    status := p.status
    isHiring := p.isHiring || truthyOpt p.careerPageUrl
    careerPageUrl := orEmpty p.careerPageUrl
    isOpenForBounty := p.isOpenForBounty || truthyOpt p.bountySubmissionUrl
    bountySubmissionUrl := orEmpty p.bountySubmissionUrl
    isOpenSource := p.isOpenSource || truthyOpt p.githubUrl
    githubUrl := orEmpty p.githubUrl
    includeSocialLinks :=
      { website := truthyOpt social.website
        twitter := truthyOpt social.twitter
        github := truthyOpt social.github
        discord := truthyOpt social.discord
        telegram := truthyOpt social.telegram }
    socialLinks :=
      { website := orEmpty social.website
        twitter := orEmpty social.twitter
        github := orEmpty social.github
        discord := orEmpty social.discord
        telegram := orEmpty social.telegram } }

/-- URLs produced by the upload phase of the project submit. -/
structure Uploads where
  logo : Option String
  heroImage : Option String
  projectImages : Option (List String)
  deriving DecidableEq, Repr

/-- The create/update payload assembled by the project `onSubmit`
(lines 841-871). -/
structure ProjectPayload where
  name : String
  tagline : String
  description : String
  categories : List String
  featured : Bool
  status : Status
  isHiring : Bool
  careerPageUrl : Option String
  isOpenForBounty : Bool
  bountySubmissionUrl : Option String
  isOpenSource : Bool
  githubUrl : Option String
  logo : Option String
  heroImage : Option String
  projectImages : Option (List String)
  socialLinks : List (String × String)
  deriving DecidableEq, Repr

/-- Payload assembly (ProjectForm `onSubmit`, lines 841-871): each
conditional URL is kept only when its governing boolean is true
(`data.isHiring ? data.careerPageUrl : undefined`), upload results are
spread in, and the social links are the entries whose include flag is
set and whose value is truthy (`Object.fromEntries(... .filter(...))`). -/
def projectData (data : ProjectFormData) (uploads : Uploads) : ProjectPayload :=
  { name := data.name
    tagline := data.tagline
    description := data.description
    categories := data.categories
    featured := data.featured
    status := data.status
    isHiring := data.isHiring
    careerPageUrl := if data.isHiring then some data.careerPageUrl else none
    isOpenForBounty := data.isOpenForBounty
    bountySubmissionUrl :=
      if data.isOpenForBounty then some data.bountySubmissionUrl else none
    isOpenSource := data.isOpenSource
    githubUrl := if data.isOpenSource then some data.githubUrl else none
    logo := uploads.logo
    heroImage := uploads.heroImage
    projectImages := uploads.projectImages
    socialLinks :=
      (if data.includeSocialLinks.website && data.socialLinks.website != ""
        then [("website", data.socialLinks.website)] else []) ++
      (if data.includeSocialLinks.twitter && data.socialLinks.twitter != ""
        then [("twitter", data.socialLinks.twitter)] else []) ++
      (if data.includeSocialLinks.github && data.socialLinks.github != ""
        then [("github", data.socialLinks.github)] else []) ++
      (if data.includeSocialLinks.discord && data.socialLinks.discord != ""
        then [("discord", data.socialLinks.discord)] else []) ++
      (if data.includeSocialLinks.telegram && data.socialLinks.telegram != ""
        then [("telegram", data.socialLinks.telegram)] else []) }

/-- Count of featured entities per kind, as returned by the API's
`getFeaturedCounts`. -/
structure FeaturedCounts where
  projects : Nat
  videos : Nat
  deriving DecidableEq, Repr

/-- Form mode (`create` or `edit`). -/
inductive Mode
  | create
  | edit
  deriving DecidableEq, Repr

/-- Final outcome of a submit run: navigated on success, aborted on the
featured cap, or aborted by a thrown error caught by the outer handler. -/
inductive Outcome
  | success
  | capRejected
  | errored
  deriving DecidableEq, Repr

/-- Result of a submit run: the trace of external calls and UI effects,
the outcome, and the loading flag once the handler has finished. -/
structure SubmitResult (ε : Type) where
  trace : List ε
  outcome : Outcome
  loading : Bool
  deriving Repr

/-- External calls and UI effects of the project `onSubmit`. -/
inductive PEvent
  | getFeaturedCounts
  | capErrorToast
  | createProjectFolders
  | uploadLogo
  | uploadHeroImage
  | uploadProjectImages
  | createProject (payload : ProjectPayload)
  | updateProject (id : String) (payload : ProjectPayload)
  | navigate
  deriving DecidableEq, Repr

/-- Results the remote API yields to the project submit pipeline; an
`error` models the corresponding awaited call throwing. -/
structure ProjectEnv where
  featuredCounts : Except Unit FeaturedCounts
  createProjectFolders : Except Unit Unit
  uploadLogo : Except Unit String
  uploadHeroImage : Except Unit String
  uploadProjectImages : Except Unit (List String)
  createProject : Except Unit Unit
  updateProject : Except Unit Unit

/-- The files staged in the project form when submit fires. -/
structure StagedFiles where
  logoFile : Bool
  heroImageFile : Bool
  projectImageCount : Nat
  deriving DecidableEq, Repr

/-- Featured-cap check of the project `onSubmit` (lines 816-835): when
the draft is featured, query the counts; a thrown query is swallowed
(`catch {}`); at 3 or more featured projects, in create mode and in edit
mode alike, a toast is shown and the submission aborts. -/
def projectCapCheck (mode : Mode) (env : ProjectEnv) (data : ProjectFormData) :
    List PEvent × Bool :=
  if data.featured then
    match env.featuredCounts with
    | Except.error _ => ([PEvent.getFeaturedCounts], false)
    | Except.ok counts =>
      if 3 ≤ counts.projects ∧ mode = Mode.create then
        ([PEvent.getFeaturedCounts, PEvent.capErrorToast], true)
      else if 3 ≤ counts.projects ∧ mode = Mode.edit then
        ([PEvent.getFeaturedCounts, PEvent.capErrorToast], true)
      else
        ([PEvent.getFeaturedCounts], false)
  else
    ([], false)

/-- One optional upload step of `uploadFiles`: skipped when no file of
that slot is staged. -/
def optUpload (present : Bool) (ev : PEvent) (res : Except Unit String) :
    List PEvent × Except Unit (Option String) :=
  if present then
    match res with
    | Except.error _ => ([ev], Except.error ())
    | Except.ok url => ([ev], Except.ok (some url))
  else
    ([], Except.ok none)

/-- The multi-image upload step of `uploadFiles`: runs only when at
least one project image is staged (`projectImageFiles.length > 0`). -/
def optUploadMany (count : Nat) (ev : PEvent) (res : Except Unit (List String)) :
    List PEvent × Except Unit (Option (List String)) :=
  if 0 < count then
    match res with
    | Except.error _ => ([ev], Except.error ())
    | Except.ok urls => ([ev], Except.ok (some urls))
  else
    ([], Except.ok none)

/-- `uploadFiles` (ProjectForm, lines 772-810): the project folders are
created first; then the logo, the hero image and the gallery images are
uploaded in order, each step only when staged, any failure aborting. -/
def uploadFiles (env : ProjectEnv) (files : StagedFiles) :
    List PEvent × Except Unit Uploads :=
  match env.createProjectFolders with
  | Except.error _ => ([PEvent.createProjectFolders], Except.error ())
  | Except.ok _ =>
    match optUpload files.logoFile PEvent.uploadLogo env.uploadLogo with
    | (tr1, Except.error _) => (PEvent.createProjectFolders :: tr1, Except.error ())
    | (tr1, Except.ok logoUrl) =>
      match optUpload files.heroImageFile PEvent.uploadHeroImage env.uploadHeroImage with
      | (tr2, Except.error _) =>
        (PEvent.createProjectFolders :: (tr1 ++ tr2), Except.error ())
      | (tr2, Except.ok heroUrl) =>
        match optUploadMany files.projectImageCount PEvent.uploadProjectImages
            env.uploadProjectImages with
        | (tr3, Except.error _) =>
          (PEvent.createProjectFolders :: (tr1 ++ tr2 ++ tr3), Except.error ())
        | (tr3, Except.ok imgs) =>
          (PEvent.createProjectFolders :: (tr1 ++ tr2 ++ tr3),
           Except.ok { logo := logoUrl, heroImage := heroUrl, projectImages := imgs })

/-- The create-or-update step of the project `onSubmit` (lines 873-879):
`createProject` in create mode, `updateProject id` in edit mode when the
route carries an id, nothing otherwise. -/
def createOrUpdateProject (mode : Mode) (id : Option String) (env : ProjectEnv)
    (payload : ProjectPayload) : List PEvent × Except Unit Unit :=
  match mode with
  | Mode.create => ([PEvent.createProject payload], env.createProject)
  | Mode.edit =>
    match id with
    | some i => ([PEvent.updateProject i payload], env.updateProject)
    | none => ([], Except.ok ())

/-- The project submit pipeline after the featured-cap check: uploads,
payload assembly, create-or-update, navigation on success; any thrown
step is caught by the outer handler (outcome `errored`), and the
`finally` clause leaves the loading flag false. -/
def projectSubmitRest (mode : Mode) (id : Option String) (env : ProjectEnv)
    (files : StagedFiles) (data : ProjectFormData) : SubmitResult PEvent :=
  match uploadFiles env files with
  | (uptr, Except.error _) =>
    { trace := uptr, outcome := Outcome.errored, loading := false }
  | (uptr, Except.ok uploads) =>
    match createOrUpdateProject mode id env (projectData data uploads) with
    | (ctr, Except.error _) =>
      { trace := uptr ++ ctr, outcome := Outcome.errored, loading := false }
    | (ctr, Except.ok _) =>
      { trace := uptr ++ ctr ++ [PEvent.navigate], outcome := Outcome.success,
        loading := false }

/-- The project `onSubmit` (lines 812-887): featured-cap check, then the
upload-and-save pipeline; on a cap rejection the handler returns early
with a toast shown and nothing uploaded or saved. -/
def projectOnSubmit (mode : Mode) (id : Option String) (env : ProjectEnv)
    (files : StagedFiles) (data : ProjectFormData) : SubmitResult PEvent :=
  match projectCapCheck mode env data with
  | (captr, true) =>
    { trace := captr, outcome := Outcome.capRejected, loading := false }
  | (captr, false) =>
    let rest := projectSubmitRest mode id env files data
    { trace := captr ++ rest.trace, outcome := rest.outcome, loading := rest.loading }

/-- The video form draft, mirroring the fields of `videoSchema`
(VideoForm, lines 34-41). -/
structure VideoFormData where
  title : String
  description : String
  playbackId : String
  thumbnail : String
  featured : Bool
  projectId : String
  deriving DecidableEq, Repr

/-- The create/update payload assembled by the video `onSubmit`. -/
structure VideoPayload where
  title : String
  description : String
  playbackId : String
  thumbnail : String
  featured : Bool
  projectId : String
  deriving DecidableEq, Repr

/-- External calls and UI effects of the video `onSubmit`. -/
inductive VEvent
  | getFeaturedCounts
  | capErrorToast
  | createVideoFolder
  | uploadVideoThumbnail
  | createVideo (payload : VideoPayload)
  | updateVideo (id : String) (payload : VideoPayload)
  | navigate
  deriving DecidableEq, Repr

/-- Results the remote API yields to the video submit pipeline. -/
structure VideoEnv where
  featuredCounts : Except Unit FeaturedCounts
  createVideoFolder : Except Unit Unit
  uploadVideoThumbnail : Except Unit String
  createVideo : Except Unit Unit
  updateVideo : Except Unit Unit

/-- An entry of the published-project list used to resolve the selected
project's name. -/
structure ProjectRef where
  id : String
  name : String
  deriving DecidableEq, Repr

/-- Featured-cap check of the video `onSubmit` (lines 141-160), analogous
to the project one but gated on the featured video count. -/
def videoCapCheck (mode : Mode) (env : VideoEnv) (data : VideoFormData) :
    List VEvent × Bool :=
  if data.featured then
    match env.featuredCounts with
    | Except.error _ => ([VEvent.getFeaturedCounts], false)
    | Except.ok counts =>
      if 3 ≤ counts.videos ∧ mode = Mode.create then
        ([VEvent.getFeaturedCounts, VEvent.capErrorToast], true)
      else if 3 ≤ counts.videos ∧ mode = Mode.edit then
        ([VEvent.getFeaturedCounts, VEvent.capErrorToast], true)
      else
        ([VEvent.getFeaturedCounts], false)
  else
    ([], false)

/-- `uploadThumbnail` (VideoForm, lines 121-135): when a thumbnail file
is staged, the video folder is created first and the thumbnail is then
uploaded into it; without a staged file nothing is called and no URL is
returned. -/
def uploadThumbnail (env : VideoEnv) (hasThumbnailFile : Bool) :
    List VEvent × Except Unit (Option String) :=
  if hasThumbnailFile then
    match env.createVideoFolder with
    | Except.error _ => ([VEvent.createVideoFolder], Except.error ())
    | Except.ok _ =>
      match env.uploadVideoThumbnail with
      | Except.error _ =>
        ([VEvent.createVideoFolder, VEvent.uploadVideoThumbnail], Except.error ())
      | Except.ok url =>
        ([VEvent.createVideoFolder, VEvent.uploadVideoThumbnail],
         Except.ok (some url))
  else
    ([], Except.ok none)

/-- JS `a || b` for an optional string against a fallback. -/
def jsOrString (a : Option String) (b : String) : String :=
  match a with
  | some s => if s == "" then b else s
  | none => b

/-- The video payload (`videoData`, lines 176-179): the draft with the
thumbnail replaced by the uploaded URL when one was produced. -/
def videoData (data : VideoFormData) (thumbnailUrl : Option String) : VideoPayload :=
  { title := data.title
    description := data.description
    playbackId := data.playbackId
    thumbnail := jsOrString thumbnailUrl data.thumbnail
    featured := data.featured
    projectId := data.projectId }

/-- The create-or-update step of the video `onSubmit` (lines 181-187). -/
def createOrUpdateVideo (mode : Mode) (id : Option String) (env : VideoEnv)
    (payload : VideoPayload) : List VEvent × Except Unit Unit :=
  match mode with
  | Mode.create => ([VEvent.createVideo payload], env.createVideo)
  | Mode.edit =>
    match id with
    | some i => ([VEvent.updateVideo i payload], env.updateVideo)
    | none => ([], Except.ok ())

/-- The video submit pipeline after the featured-cap check: resolve the
selected project (throwing when absent), upload the thumbnail, then
create or update and navigate on success. -/
def videoSubmitRest (mode : Mode) (id : Option String) (env : VideoEnv)
    (projects : List ProjectRef) (hasThumbnailFile : Bool)
    (data : VideoFormData) : SubmitResult VEvent :=
  match projects.find? (fun p => p.id == data.projectId) with
  | none => { trace := [], outcome := Outcome.errored, loading := false }
  | some _ =>
    match uploadThumbnail env hasThumbnailFile with
    | (uptr, Except.error _) =>
      { trace := uptr, outcome := Outcome.errored, loading := false }
    | (uptr, Except.ok thumbnailUrl) =>
      match createOrUpdateVideo mode id env (videoData data thumbnailUrl) with
      | (ctr, Except.error _) =>
        { trace := uptr ++ ctr, outcome := Outcome.errored, loading := false }
      | (ctr, Except.ok _) =>
        { trace := uptr ++ ctr ++ [VEvent.navigate], outcome := Outcome.success,
          loading := false }

/-- The video `onSubmit` (lines 137-195): featured-cap check, then the
upload-and-save pipeline. -/
def videoOnSubmit (mode : Mode) (id : Option String) (env : VideoEnv)
    (projects : List ProjectRef) (hasThumbnailFile : Bool)
    (data : VideoFormData) : SubmitResult VEvent :=
  match videoCapCheck mode env data with
  | (captr, true) =>
    { trace := captr, outcome := Outcome.capRejected, loading := false }
  | (captr, false) =>
    let rest := videoSubmitRest mode id env projects hasThumbnailFile data
    { trace := captr ++ rest.trace, outcome := rest.outcome, loading := rest.loading }

/-! ## Helper lemmas -/

theorem mem_errIf {a f : ProjField} {c : Prop} [Decidable c] :
    a ∈ errIf c f ↔ c ∧ a = f := by
  unfold errIf
  split <;> simp_all

/-! ## Concrete inputs used by witnesses and counterexamples -/

/-- URL checker that accepts nothing: acceptance of a draft under it can
never be due to a URL value being judged well-formed. -/
def noUrl : String → Bool := fun _ => false

/-- URL checker that accepts everything. -/
def anyUrl : String → Bool := fun _ => true

/-- The spec's scenario draft: name "Foo", tagline "bar", a description
of at least 10 characters, one category, all flags false, unpublished. -/
def scenarioDraft : ProjectFormData :=
  { name := "Foo"
    tagline := "bar"
    description := "a sufficiently long description"
    categories := ["DeFi"]
    website := ""
    isHiring := false
    careerPageUrl := ""
    isOpenForBounty := false
    bountySubmissionUrl := ""
    isOpenSource := false
    githubUrl := ""
    includeSocialLinks :=
      { website := false, twitter := false, github := false, discord := false,
        telegram := false }
    socialLinks :=
      { website := "", twitter := "", github := "", discord := "", telegram := "" }
    featured := false
    status := Status.unpublished }

/-! ## C1 -/

/-- C1 counterexample: a draft with `isHiring = true` and an empty
`careerPageUrl` (the scenario draft with the flag toggled) passes the
schema check with no errors — under the checker that rejects every URL
as well as under the one that accepts every URL, so its acceptance does
not depend on how the empty string is judged.  The claim says `Validate`
rejects such a draft; it does not: `projectSchema` carries no conditional
requirement tying `careerPageUrl` to `isHiring`. -/
theorem C1_counterexample :
    ({ scenarioDraft with isHiring := true } : ProjectFormData).isHiring = true ∧
    ({ scenarioDraft with isHiring := true } : ProjectFormData).careerPageUrl = "" ∧
    projectSchema noUrl { scenarioDraft with isHiring := true } = [] ∧
    projectSchema anyUrl { scenarioDraft with isHiring := true } = [] := by
  refine ⟨rfl, rfl, by decide, by decide⟩

/-- C1 amended: the schema never requires the conditional URL fields.
The three governing booleans have no influence on validation at all, and
each conditional URL field is in error exactly when it is non-empty and
the URL checker rejects it — in particular an empty value is always
accepted, whether its flag is true or false (the half of the original
claim that survives). -/
theorem C1_amended (urlOk : String → Bool) (d : ProjectFormData) (b1 b2 b3 : Bool) :
    projectSchema urlOk
        { d with isHiring := b1, isOpenForBounty := b2, isOpenSource := b3 } =
      projectSchema urlOk d ∧
    (ProjField.careerPageUrl ∈ projectSchema urlOk d ↔
      urlOk d.careerPageUrl = false ∧ d.careerPageUrl ≠ "") ∧
    (ProjField.bountySubmissionUrl ∈ projectSchema urlOk d ↔
      urlOk d.bountySubmissionUrl = false ∧ d.bountySubmissionUrl ≠ "") ∧
    (ProjField.githubUrl ∈ projectSchema urlOk d ↔
      urlOk d.githubUrl = false ∧ d.githubUrl ≠ "") := by
  refine ⟨rfl, ?_, ?_, ?_⟩ <;>
    simp [projectSchema, mem_errIf, urlOptionalOk]

/-! ## C2 -/

/-- C2: the schema rejects every draft whose category list is empty, and
accepts every draft that is otherwise valid — non-empty name and
tagline, a description of at least 10 characters, every URL field empty
or well-formed — and has exactly one category. -/
theorem C2_theorem (urlOk : String → Bool) (d : ProjectFormData) :
    (d.categories = [] → projectValid urlOk d = false) ∧
    (1 ≤ d.name.length → 1 ≤ d.tagline.length → 10 ≤ d.description.length →
      d.categories.length = 1 →
      urlOptionalOk urlOk d.website = true →
      urlOptionalOk urlOk d.careerPageUrl = true →
      urlOptionalOk urlOk d.bountySubmissionUrl = true →
      urlOptionalOk urlOk d.githubUrl = true →
      urlOptionalOk urlOk d.socialLinks.website = true →
      urlOptionalOk urlOk d.socialLinks.twitter = true →
      urlOptionalOk urlOk d.socialLinks.github = true →
      urlOptionalOk urlOk d.socialLinks.discord = true →
      urlOptionalOk urlOk d.socialLinks.telegram = true →
      projectValid urlOk d = true) := by
  constructor
  · intro h
    have hm : ProjField.categories ∈ projectSchema urlOk d := by
      simp [projectSchema, mem_errIf, h]
    have hne : projectSchema urlOk d ≠ [] := List.ne_nil_of_mem hm
    simp only [projectValid]
    rcases hh : projectSchema urlOk d with _ | ⟨x, xs⟩
    · exact absurd hh hne
    · rfl
  · intro h1 h2 h3 h4 h5 h6 h7 h8 h9 h10 h11 h12 h13
    have n1 : ¬ (d.name.length < 1) := by omega
    have n2 : ¬ (d.tagline.length < 1) := by omega
    have n3 : ¬ (d.description.length < 10) := by omega
    have n4 : ¬ (d.categories.length < 1) := by omega
    simp [projectValid, projectSchema, errIf, n1, n2, n3, n4,
      h5, h6, h7, h8, h9, h10, h11, h12, h13]

/-- C2 witness: the scenario draft (one category) is accepted, and the
same draft with its category list emptied is rejected. -/
theorem C2_witness :
    projectValid noUrl { scenarioDraft with categories := [] } = false ∧
    projectValid noUrl scenarioDraft = true := by
  constructor
  · exact (C2_theorem noUrl { scenarioDraft with categories := [] }).1 rfl
  · exact (C2_theorem noUrl scenarioDraft).2 (by decide) (by decide) (by decide)
      (by decide) (by decide) (by decide) (by decide) (by decide) (by decide)
      (by decide) (by decide) (by decide) (by decide)

/-! ## C3 -/

/-- C3: toggling a category twice returns the selected-category set to
its original value — membership in the selection is restored for every
name, whatever the starting list. -/
theorem C3_theorem (selected : List String) (categoryName x : String) :
    x ∈ toggleCategory (toggleCategory selected categoryName) categoryName ↔
      x ∈ selected := by
  unfold toggleCategory
  by_cases h : categoryName ∈ selected
  · have hc : selected.contains categoryName = true := List.elem_iff.mpr h
    have hc2 : (selected.filter (fun cat => cat != categoryName)).contains
        categoryName = false := by
      rw [Bool.eq_false_iff]
      intro hmem
      have := List.of_mem_filter (List.elem_iff.mp hmem)
      simp at this
    simp only [hc, if_true, hc2, Bool.false_eq_true, if_false]
    simp only [List.mem_append, List.mem_filter, List.mem_singleton, bne_iff_ne,
      ne_eq]
    constructor
    · rintro (⟨hx, _⟩ | rfl)
      · exact hx
      · exact h
    · intro hx
      by_cases hxc : x = categoryName
      · exact Or.inr hxc
      · exact Or.inl ⟨hx, hxc⟩
  · have hc : selected.contains categoryName = false := by
      rw [Bool.eq_false_iff]
      intro hmem
      exact h (List.elem_iff.mp hmem)
    have hc2 : (selected ++ [categoryName]).contains categoryName = true :=
      List.elem_iff.mpr (List.mem_append.mpr (Or.inr (List.mem_singleton.mpr rfl)))
    simp only [hc, Bool.false_eq_true, if_false, hc2, if_true]
    rw [List.filter_append]
    have hself : selected.filter (fun cat => cat != categoryName) = selected := by
      apply List.filter_eq_self.mpr
      intro a ha
      simp only [bne_iff_ne, ne_eq]
      intro haeq
      exact h (haeq ▸ ha)
    simp [hself]

/-! ## C6 -/

/-- C6: the payload assembled by the project submit carries no value for
a conditional URL field whose governing boolean is false — the field is
set to `undefined` (`none`) rather than to the possibly stale draft
value. -/
theorem C6_theorem (data : ProjectFormData) (uploads : Uploads) :
    (data.isHiring = false → (projectData data uploads).careerPageUrl = none) ∧
    (data.isOpenForBounty = false →
      (projectData data uploads).bountySubmissionUrl = none) ∧
    (data.isOpenSource = false → (projectData data uploads).githubUrl = none) := by
  refine ⟨fun h => ?_, fun h => ?_, fun h => ?_⟩ <;>
    simp [projectData, h]

/-- C6 witness: the spec's scenario draft passes validation, and the
create payload assembled from it has none of the three conditional URL
fields present. -/
theorem C6_witness :
    projectValid noUrl scenarioDraft = true ∧
    (projectData scenarioDraft
        { logo := none, heroImage := none, projectImages := none }).careerPageUrl
      = none ∧
    (projectData scenarioDraft
        { logo := none, heroImage := none, projectImages := none }).bountySubmissionUrl
      = none ∧
    (projectData scenarioDraft
        { logo := none, heroImage := none, projectImages := none }).githubUrl
      = none := by
  refine ⟨by decide, ?_, ?_, ?_⟩
  · exact (C6_theorem scenarioDraft
      { logo := none, heroImage := none, projectImages := none }).1 rfl
  · exact (C6_theorem scenarioDraft
      { logo := none, heroImage := none, projectImages := none }).2.1 rfl
  · exact (C6_theorem scenarioDraft
      { logo := none, heroImage := none, projectImages := none }).2.2 rfl

/-! ## C10 -/

/-- C10: load-for-edit sets each governing boolean of the draft to the
disjunction of the stored flag with the non-emptiness of its paired URL;
in particular a stored record with the flag false but a non-empty URL is
loaded with the flag forced to true. -/
theorem C10_theorem (d0 : ProjectFormData) (p : StoredProject) :
    ((fetchProject d0 p).isHiring = true ↔
      p.isHiring = true ∨ ∃ s, p.careerPageUrl = some s ∧ s ≠ "") ∧
    ((fetchProject d0 p).isOpenForBounty = true ↔
      p.isOpenForBounty = true ∨ ∃ s, p.bountySubmissionUrl = some s ∧ s ≠ "") ∧
    ((fetchProject d0 p).isOpenSource = true ↔
      p.isOpenSource = true ∨ ∃ s, p.githubUrl = some s ∧ s ≠ "") := by
  have htruthy : ∀ o : Option String, truthyOpt o = true ↔ ∃ s, o = some s ∧ s ≠ "" := by
    intro o
    cases o <;> simp [truthyOpt]
  refine ⟨?_, ?_, ?_⟩ <;>
    simp [fetchProject, Bool.or_eq_true, htruthy]

/-! ## Event classifiers -/

/-- Project events that are file uploads. -/
def isPUpload : PEvent → Bool
  | PEvent.uploadLogo => true
  | PEvent.uploadHeroImage => true
  | PEvent.uploadProjectImages => true
  | _ => false

/-- Project events that are the folder creation. -/
def isPFolder : PEvent → Bool
  | PEvent.createProjectFolders => true
  | _ => false

/-- Project events that are the create API call. -/
def isPCreateEv : PEvent → Bool
  | PEvent.createProject _ => true
  | _ => false

/-- Project events that are the update API call. -/
def isPUpdateEv : PEvent → Bool
  | PEvent.updateProject _ _ => true
  | _ => false

/-- Project update calls carrying the given entity id. -/
def isPUpdateFor (id : String) : PEvent → Bool
  | PEvent.updateProject j _ => j == id
  | _ => false

/-- Video events that are the thumbnail upload. -/
def isVUpload : VEvent → Bool
  | VEvent.uploadVideoThumbnail => true
  | _ => false

/-- Video events that are the folder creation. -/
def isVFolder : VEvent → Bool
  | VEvent.createVideoFolder => true
  | _ => false

/-- Video events that are the create API call. -/
def isVCreateEv : VEvent → Bool
  | VEvent.createVideo _ => true
  | _ => false

/-- Video events that are the update API call. -/
def isVUpdateEv : VEvent → Bool
  | VEvent.updateVideo _ _ => true
  | _ => false

/-- Video update calls carrying the given entity id. -/
def isVUpdateFor (id : String) : VEvent → Bool
  | VEvent.updateVideo j _ => j == id
  | _ => false

/-! ## Segment lemmas for the project pipeline -/

theorem mem_projectCapCheck {mode : Mode} {env : ProjectEnv} {data : ProjectFormData}
    {e : PEvent} (h : e ∈ (projectCapCheck mode env data).1) :
    e = PEvent.getFeaturedCounts ∨ e = PEvent.capErrorToast := by
  unfold projectCapCheck at h
  split at h
  · split at h
    · simp_all
    · split at h
      · simp_all
      · split at h
        · simp_all
        · simp_all
  · simp_all

theorem mem_optUpload {present : Bool} {ev : PEvent} {res : Except Unit String}
    {e : PEvent} (h : e ∈ (optUpload present ev res).1) : e = ev := by
  unfold optUpload at h
  split at h
  · split at h <;> simp_all
  · simp_all

theorem mem_optUploadMany {count : Nat} {ev : PEvent}
    {res : Except Unit (List String)} {e : PEvent}
    (h : e ∈ (optUploadMany count ev res).1) : e = ev := by
  unfold optUploadMany at h
  split at h
  · split at h <;> simp_all
  · simp_all

theorem mem_uploadFiles {env : ProjectEnv} {files : StagedFiles} {e : PEvent}
    (h : e ∈ (uploadFiles env files).1) :
    e = PEvent.createProjectFolders ∨ e = PEvent.uploadLogo ∨
    e = PEvent.uploadHeroImage ∨ e = PEvent.uploadProjectImages := by
  unfold uploadFiles at h
  split at h
  · simp_all
  · split at h
    case _ tr1 heq =>
      simp only [List.mem_cons] at h
      rcases h with rfl | h
      · exact Or.inl rfl
      · have h1 : e ∈ (optUpload files.logoFile PEvent.uploadLogo env.uploadLogo).1 := by
          rw [heq]; exact h
        exact Or.inr (Or.inl (mem_optUpload h1))
    case _ tr1 logoUrl heq =>
      split at h
      case _ tr2 heq2 =>
        simp only [List.mem_cons, List.mem_append] at h
        rcases h with rfl | h | h
        · exact Or.inl rfl
        · have h1 : e ∈ (optUpload files.logoFile PEvent.uploadLogo env.uploadLogo).1 := by
            rw [heq]; exact h
          exact Or.inr (Or.inl (mem_optUpload h1))
        · have h2 : e ∈ (optUpload files.heroImageFile PEvent.uploadHeroImage
              env.uploadHeroImage).1 := by
            rw [heq2]; exact h
          exact Or.inr (Or.inr (Or.inl (mem_optUpload h2)))
      case _ tr2 heroUrl heq2 =>
        split at h
        case _ tr3 heq3 =>
          simp only [List.mem_cons, List.mem_append] at h
          rcases h with rfl | (h | h) | h
          · exact Or.inl rfl
          · have h1 : e ∈ (optUpload files.logoFile PEvent.uploadLogo env.uploadLogo).1 := by
              rw [heq]; exact h
            exact Or.inr (Or.inl (mem_optUpload h1))
          · have h2 : e ∈ (optUpload files.heroImageFile PEvent.uploadHeroImage
                env.uploadHeroImage).1 := by
              rw [heq2]; exact h
            exact Or.inr (Or.inr (Or.inl (mem_optUpload h2)))
          · have h3 : e ∈ (optUploadMany files.projectImageCount
                PEvent.uploadProjectImages env.uploadProjectImages).1 := by
              rw [heq3]; exact h
            exact Or.inr (Or.inr (Or.inr (mem_optUploadMany h3)))
        case _ tr3 imgs heq3 =>
          simp only [List.mem_cons, List.mem_append] at h
          rcases h with rfl | (h | h) | h
          · exact Or.inl rfl
          · have h1 : e ∈ (optUpload files.logoFile PEvent.uploadLogo env.uploadLogo).1 := by
              rw [heq]; exact h
            exact Or.inr (Or.inl (mem_optUpload h1))
          · have h2 : e ∈ (optUpload files.heroImageFile PEvent.uploadHeroImage
                env.uploadHeroImage).1 := by
              rw [heq2]; exact h
            exact Or.inr (Or.inr (Or.inl (mem_optUpload h2)))
          · have h3 : e ∈ (optUploadMany files.projectImageCount
                PEvent.uploadProjectImages env.uploadProjectImages).1 := by
              rw [heq3]; exact h
            exact Or.inr (Or.inr (Or.inr (mem_optUploadMany h3)))

theorem uploadFiles_head (env : ProjectEnv) (files : StagedFiles) :
    ∃ r, (uploadFiles env files).1 = PEvent.createProjectFolders :: r := by
  unfold uploadFiles
  split
  · exact ⟨[], rfl⟩
  · split
    · exact ⟨_, rfl⟩
    · split
      · exact ⟨_, rfl⟩
      · split
        · exact ⟨_, rfl⟩
        · exact ⟨_, rfl⟩

theorem mem_createOrUpdateProject {mode : Mode} {id : Option String}
    {env : ProjectEnv} {payload : ProjectPayload} {e : PEvent}
    (h : e ∈ (createOrUpdateProject mode id env payload).1) :
    isPCreateEv e = true ∨ isPUpdateEv e = true := by
  unfold createOrUpdateProject at h
  cases mode
  · simp only [List.mem_singleton] at h
    subst h
    exact Or.inl rfl
  · cases id
    · simp at h
    · simp only [List.mem_singleton] at h
      subst h
      exact Or.inr rfl

/-! ## Branch enumeration for the project pipeline -/

theorem projectSubmitRest_spec (mode : Mode) (id : Option String) (env : ProjectEnv)
    (files : StagedFiles) (data : ProjectFormData) :
    (∃ uptr, uploadFiles env files = (uptr, Except.error ()) ∧
      projectSubmitRest mode id env files data =
        { trace := uptr, outcome := Outcome.errored, loading := false }) ∨
    (∃ uptr uploads ctr,
      uploadFiles env files = (uptr, Except.ok uploads) ∧
      ((createOrUpdateProject mode id env (projectData data uploads) =
          (ctr, Except.error ()) ∧
        projectSubmitRest mode id env files data =
          { trace := uptr ++ ctr, outcome := Outcome.errored, loading := false }) ∨
       (createOrUpdateProject mode id env (projectData data uploads) =
          (ctr, Except.ok ()) ∧
        projectSubmitRest mode id env files data =
          { trace := uptr ++ ctr ++ [PEvent.navigate], outcome := Outcome.success,
            loading := false }))) := by
  unfold projectSubmitRest
  split
  next uptr e heq =>
    cases e
    exact Or.inl ⟨uptr, heq, rfl⟩
  next uptr uploads heq =>
    split
    next ctr e2 heq2 =>
      cases e2
      exact Or.inr ⟨uptr, uploads, ctr, heq, Or.inl ⟨heq2, rfl⟩⟩
    next ctr u heq2 =>
      cases u
      exact Or.inr ⟨uptr, uploads, ctr, heq, Or.inr ⟨heq2, rfl⟩⟩

theorem projectOnSubmit_spec (mode : Mode) (id : Option String) (env : ProjectEnv)
    (files : StagedFiles) (data : ProjectFormData) :
    ((projectCapCheck mode env data).2 = true ∧
      projectOnSubmit mode id env files data =
        { trace := (projectCapCheck mode env data).1,
          outcome := Outcome.capRejected, loading := false }) ∨
    ((projectCapCheck mode env data).2 = false ∧
      projectOnSubmit mode id env files data =
        { trace := (projectCapCheck mode env data).1 ++
            (projectSubmitRest mode id env files data).trace,
          outcome := (projectSubmitRest mode id env files data).outcome,
          loading := (projectSubmitRest mode id env files data).loading }) := by
  unfold projectOnSubmit
  split
  next captr heq =>
    left
    rw [heq]
    exact ⟨rfl, rfl⟩
  next captr heq =>
    right
    rw [heq]
    exact ⟨rfl, rfl⟩

/-! ## Segment lemmas for the video pipeline -/

theorem mem_videoCapCheck {mode : Mode} {env : VideoEnv} {data : VideoFormData}
    {e : VEvent} (h : e ∈ (videoCapCheck mode env data).1) :
    e = VEvent.getFeaturedCounts ∨ e = VEvent.capErrorToast := by
  unfold videoCapCheck at h
  split at h
  · split at h
    · simp_all
    · split at h
      · simp_all
      · split at h
        · simp_all
        · simp_all
  · simp_all

theorem mem_uploadThumbnail {env : VideoEnv} {hasThumbnailFile : Bool} {e : VEvent}
    (h : e ∈ (uploadThumbnail env hasThumbnailFile).1) :
    e = VEvent.createVideoFolder ∨ e = VEvent.uploadVideoThumbnail := by
  unfold uploadThumbnail at h
  split at h
  · split at h
    · simp_all
    · split at h
      · simp_all
      · simp_all
  · simp_all

theorem uploadThumbnail_head (env : VideoEnv) :
    ∃ r, (uploadThumbnail env true).1 = VEvent.createVideoFolder :: r := by
  unfold uploadThumbnail
  simp only [if_true]
  split
  · exact ⟨[], rfl⟩
  · split
    · exact ⟨_, rfl⟩
    · exact ⟨_, rfl⟩

theorem mem_createOrUpdateVideo {mode : Mode} {id : Option String}
    {env : VideoEnv} {payload : VideoPayload} {e : VEvent}
    (h : e ∈ (createOrUpdateVideo mode id env payload).1) :
    isVCreateEv e = true ∨ isVUpdateEv e = true := by
  unfold createOrUpdateVideo at h
  cases mode
  · simp only [List.mem_singleton] at h
    subst h
    exact Or.inl rfl
  · cases id
    · simp at h
    · simp only [List.mem_singleton] at h
      subst h
      exact Or.inr rfl

/-! ## Branch enumeration for the video pipeline -/

theorem videoSubmitRest_spec (mode : Mode) (id : Option String) (env : VideoEnv)
    (projects : List ProjectRef) (hasThumbnailFile : Bool) (data : VideoFormData) :
    (projects.find? (fun p => p.id == data.projectId) = none ∧
      videoSubmitRest mode id env projects hasThumbnailFile data =
        { trace := [], outcome := Outcome.errored, loading := false }) ∨
    (∃ sel uptr, projects.find? (fun p => p.id == data.projectId) = some sel ∧
      uploadThumbnail env hasThumbnailFile = (uptr, Except.error ()) ∧
      videoSubmitRest mode id env projects hasThumbnailFile data =
        { trace := uptr, outcome := Outcome.errored, loading := false }) ∨
    (∃ sel uptr turl ctr,
      projects.find? (fun p => p.id == data.projectId) = some sel ∧
      uploadThumbnail env hasThumbnailFile = (uptr, Except.ok turl) ∧
      ((createOrUpdateVideo mode id env (videoData data turl) =
          (ctr, Except.error ()) ∧
        videoSubmitRest mode id env projects hasThumbnailFile data =
          { trace := uptr ++ ctr, outcome := Outcome.errored, loading := false }) ∨
       (createOrUpdateVideo mode id env (videoData data turl) =
          (ctr, Except.ok ()) ∧
        videoSubmitRest mode id env projects hasThumbnailFile data =
          { trace := uptr ++ ctr ++ [VEvent.navigate], outcome := Outcome.success,
            loading := false }))) := by
  unfold videoSubmitRest
  split
  next heq =>
    exact Or.inl ⟨heq, rfl⟩
  next sel heq =>
    split
    next uptr e heq2 =>
      cases e
      exact Or.inr (Or.inl ⟨sel, uptr, heq, heq2, rfl⟩)
    next uptr turl heq2 =>
      split
      next ctr e2 heq3 =>
        cases e2
        exact Or.inr (Or.inr ⟨sel, uptr, turl, ctr, heq, heq2, Or.inl ⟨heq3, rfl⟩⟩)
      next ctr u heq3 =>
        cases u
        exact Or.inr (Or.inr ⟨sel, uptr, turl, ctr, heq, heq2, Or.inr ⟨heq3, rfl⟩⟩)

theorem videoOnSubmit_spec (mode : Mode) (id : Option String) (env : VideoEnv)
    (projects : List ProjectRef) (hasThumbnailFile : Bool) (data : VideoFormData) :
    ((videoCapCheck mode env data).2 = true ∧
      videoOnSubmit mode id env projects hasThumbnailFile data =
        { trace := (videoCapCheck mode env data).1,
          outcome := Outcome.capRejected, loading := false }) ∨
    ((videoCapCheck mode env data).2 = false ∧
      videoOnSubmit mode id env projects hasThumbnailFile data =
        { trace := (videoCapCheck mode env data).1 ++
            (videoSubmitRest mode id env projects hasThumbnailFile data).trace,
          outcome := (videoSubmitRest mode id env projects hasThumbnailFile data).outcome,
          loading := (videoSubmitRest mode id env projects hasThumbnailFile data).loading }) := by
  unfold videoOnSubmit
  split
  next captr heq =>
    left
    rw [heq]
    exact ⟨rfl, rfl⟩
  next captr heq =>
    right
    rw [heq]
    exact ⟨rfl, rfl⟩

/-! ## Cap-check evaluation lemmas -/

theorem projectCapCheck_hit (mode : Mode) (env : ProjectEnv) (data : ProjectFormData)
    (pc : FeaturedCounts) (hf : data.featured = true)
    (hc : env.featuredCounts = Except.ok pc) (h3 : 3 ≤ pc.projects) :
    projectCapCheck mode env data =
      ([PEvent.getFeaturedCounts, PEvent.capErrorToast], true) := by
  unfold projectCapCheck
  rw [hf, hc]
  cases mode <;> simp [h3]

theorem projectCapCheck_snd_false (mode : Mode) (env : ProjectEnv)
    (data : ProjectFormData) (pc : FeaturedCounts)
    (hc : env.featuredCounts = Except.ok pc) (hlt : pc.projects < 3) :
    (projectCapCheck mode env data).2 = false := by
  have h3 : ¬ (3 ≤ pc.projects) := by omega
  unfold projectCapCheck
  rw [hc]
  split
  · simp [h3]
  · rfl

theorem projectCapCheck_err (mode : Mode) (env : ProjectEnv) (data : ProjectFormData)
    (hf : data.featured = true) (hc : env.featuredCounts = Except.error ()) :
    projectCapCheck mode env data = ([PEvent.getFeaturedCounts], false) := by
  unfold projectCapCheck
  rw [hf, hc]
  simp

theorem videoCapCheck_hit (mode : Mode) (env : VideoEnv) (data : VideoFormData)
    (vc : FeaturedCounts) (hf : data.featured = true)
    (hc : env.featuredCounts = Except.ok vc) (h3 : 3 ≤ vc.videos) :
    videoCapCheck mode env data =
      ([VEvent.getFeaturedCounts, VEvent.capErrorToast], true) := by
  unfold videoCapCheck
  rw [hf, hc]
  cases mode <;> simp [h3]

theorem videoCapCheck_snd_false (mode : Mode) (env : VideoEnv)
    (data : VideoFormData) (vc : FeaturedCounts)
    (hc : env.featuredCounts = Except.ok vc) (hlt : vc.videos < 3) :
    (videoCapCheck mode env data).2 = false := by
  have h3 : ¬ (3 ≤ vc.videos) := by omega
  unfold videoCapCheck
  rw [hc]
  split
  · simp [h3]
  · rfl

theorem videoCapCheck_err (mode : Mode) (env : VideoEnv) (data : VideoFormData)
    (hf : data.featured = true) (hc : env.featuredCounts = Except.error ()) :
    videoCapCheck mode env data = ([VEvent.getFeaturedCounts], false) := by
  unfold videoCapCheck
  rw [hf, hc]
  simp

/-! ## Outcome and trace-shape lemmas -/

theorem projectSubmitRest_outcome (mode : Mode) (id : Option String)
    (env : ProjectEnv) (files : StagedFiles) (data : ProjectFormData) :
    (projectSubmitRest mode id env files data).outcome = Outcome.errored ∨
    (projectSubmitRest mode id env files data).outcome = Outcome.success := by
  rcases projectSubmitRest_spec mode id env files data with
    ⟨uptr, _, heq⟩ | ⟨uptr, uploads, ctr, _, ⟨_, heq⟩ | ⟨_, heq⟩⟩
  · exact Or.inl (by rw [heq])
  · exact Or.inl (by rw [heq])
  · exact Or.inr (by rw [heq])

theorem videoSubmitRest_outcome (mode : Mode) (id : Option String)
    (env : VideoEnv) (projects : List ProjectRef) (hasThumbnailFile : Bool)
    (data : VideoFormData) :
    (videoSubmitRest mode id env projects hasThumbnailFile data).outcome =
        Outcome.errored ∨
    (videoSubmitRest mode id env projects hasThumbnailFile data).outcome =
        Outcome.success := by
  rcases videoSubmitRest_spec mode id env projects hasThumbnailFile data with
    ⟨_, heq⟩ | ⟨sel, uptr, _, _, heq⟩ |
    ⟨sel, uptr, turl, ctr, _, _, ⟨_, heq⟩ | ⟨_, heq⟩⟩
  · exact Or.inl (by rw [heq])
  · exact Or.inl (by rw [heq])
  · exact Or.inl (by rw [heq])
  · exact Or.inr (by rw [heq])

theorem projectSubmitRest_head (mode : Mode) (id : Option String)
    (env : ProjectEnv) (files : StagedFiles) (data : ProjectFormData) :
    ∃ r, (projectSubmitRest mode id env files data).trace =
      PEvent.createProjectFolders :: r := by
  obtain ⟨r0, hr0⟩ := uploadFiles_head env files
  rcases projectSubmitRest_spec mode id env files data with
    ⟨uptr, hu, heq⟩ | ⟨uptr, uploads, ctr, hu, ⟨_, heq⟩ | ⟨_, heq⟩⟩
  · have huptr : uptr = PEvent.createProjectFolders :: r0 := by
      have : (uploadFiles env files).1 = uptr := by rw [hu]
      rw [← this, hr0]
    exact ⟨r0, by rw [heq, huptr]⟩
  · have huptr : uptr = PEvent.createProjectFolders :: r0 := by
      have : (uploadFiles env files).1 = uptr := by rw [hu]
      rw [← this, hr0]
    exact ⟨r0 ++ ctr, by rw [heq, huptr, List.cons_append]⟩
  · have huptr : uptr = PEvent.createProjectFolders :: r0 := by
      have : (uploadFiles env files).1 = uptr := by rw [hu]
      rw [← this, hr0]
    exact ⟨r0 ++ ctr ++ [PEvent.navigate],
      by rw [heq, huptr]; simp [List.cons_append, List.append_assoc]⟩

theorem projectSubmitRest_loading (mode : Mode) (id : Option String)
    (env : ProjectEnv) (files : StagedFiles) (data : ProjectFormData) :
    (projectSubmitRest mode id env files data).loading = false := by
  unfold projectSubmitRest
  split
  · rfl
  · split <;> rfl

theorem videoSubmitRest_loading (mode : Mode) (id : Option String)
    (env : VideoEnv) (projects : List ProjectRef) (hasThumbnailFile : Bool)
    (data : VideoFormData) :
    (videoSubmitRest mode id env projects hasThumbnailFile data).loading = false := by
  unfold videoSubmitRest
  split
  · rfl
  · split
    · rfl
    · split <;> rfl

/-! ## Concrete environments for witnesses -/

/-- Environment in which every API call succeeds and the featured counts
are zero. -/
def okProjectEnv : ProjectEnv :=
  { featuredCounts := Except.ok { projects := 0, videos := 0 }
    createProjectFolders := Except.ok ()
    uploadLogo := Except.ok "logo-url"
    uploadHeroImage := Except.ok "hero-url"
    uploadProjectImages := Except.ok ["img-url"]
    createProject := Except.ok ()
    updateProject := Except.ok () }

/-- Environment reporting featured counts at the cap. -/
def capProjectEnv : ProjectEnv :=
  { okProjectEnv with featuredCounts := Except.ok { projects := 3, videos := 3 } }

/-- Environment in which the featured-count query itself throws. -/
def errCountProjectEnv : ProjectEnv :=
  { okProjectEnv with featuredCounts := Except.error () }

/-- Video environment in which every API call succeeds. -/
def okVideoEnv : VideoEnv :=
  { featuredCounts := Except.ok { projects := 0, videos := 0 }
    createVideoFolder := Except.ok ()
    uploadVideoThumbnail := Except.ok "thumb-url"
    createVideo := Except.ok ()
    updateVideo := Except.ok () }

/-- Video environment reporting featured counts at the cap. -/
def capVideoEnv : VideoEnv :=
  { okVideoEnv with featuredCounts := Except.ok { projects := 3, videos := 3 } }

/-- Video environment in which the featured-count query itself throws. -/
def errCountVideoEnv : VideoEnv :=
  { okVideoEnv with featuredCounts := Except.error () }

/-- No staged files. -/
def noFiles : StagedFiles :=
  { logoFile := false, heroImageFile := false, projectImageCount := 0 }

/-- The scenario draft with the featured flag set. -/
def featuredDraft : ProjectFormData := { scenarioDraft with featured := true }

/-- A featured video draft pointing at the project "p1". -/
def sampleVideo : VideoFormData :=
  { title := "Intro", description := "", playbackId := "pb123", thumbnail := "",
    featured := true, projectId := "p1" }

/-- A published-project list with the one project the sample video
references. -/
def oneProject : List ProjectRef := [{ id := "p1", name := "Foo" }]

/-! ## C8 -/

/-- C8: whatever the mode, the draft, the staged files and the API
results — success, cap rejection, or a throw at any step — both submit
handlers finish with the loading flag false, so the form is back in the
editable state with the submit control re-enabled. -/
theorem C8_theorem (pm : Mode) (pid : Option String) (penv : ProjectEnv)
    (files : StagedFiles) (pdata : ProjectFormData) (vm : Mode)
    (vid : Option String) (venv : VideoEnv) (projects : List ProjectRef)
    (hasThumb : Bool) (vdata : VideoFormData) :
    (projectOnSubmit pm pid penv files pdata).loading = false ∧
    (videoOnSubmit vm vid venv projects hasThumb vdata).loading = false := by
  constructor
  · rcases projectOnSubmit_spec pm pid penv files pdata with ⟨_, heq⟩ | ⟨_, heq⟩
    · rw [heq]
    · rw [heq]
      exact projectSubmitRest_loading pm pid penv files pdata
  · rcases videoOnSubmit_spec vm vid venv projects hasThumb vdata with
      ⟨_, heq⟩ | ⟨_, heq⟩
    · rw [heq]
    · rw [heq]
      exact videoSubmitRest_loading vm vid venv projects hasThumb vdata

/-! ## C9 -/

/-- C9: when the draft is featured and the featured-count query throws,
both submit handlers swallow the error (`catch` with an empty body) and
continue exactly as the cap-free pipeline would: the trace is the counts
query followed by the uncheck-gated rest of the pipeline, the outcome is
the rest's outcome (so never a cap rejection), and for the project form
the rest begins with the folder creation. -/
theorem C9_theorem (pm : Mode) (pid : Option String) (penv : ProjectEnv)
    (files : StagedFiles) (pdata : ProjectFormData) (vm : Mode)
    (vid : Option String) (venv : VideoEnv) (projects : List ProjectRef)
    (hasThumb : Bool) (vdata : VideoFormData)
    (hpf : pdata.featured = true) (hpe : penv.featuredCounts = Except.error ())
    (hvf : vdata.featured = true) (hve : venv.featuredCounts = Except.error ()) :
    ((projectOnSubmit pm pid penv files pdata).trace =
        PEvent.getFeaturedCounts ::
          (projectSubmitRest pm pid penv files pdata).trace ∧
      (projectOnSubmit pm pid penv files pdata).outcome =
        (projectSubmitRest pm pid penv files pdata).outcome ∧
      (projectOnSubmit pm pid penv files pdata).outcome ≠ Outcome.capRejected ∧
      ∃ r, (projectSubmitRest pm pid penv files pdata).trace =
        PEvent.createProjectFolders :: r) ∧
    ((videoOnSubmit vm vid venv projects hasThumb vdata).trace =
        VEvent.getFeaturedCounts ::
          (videoSubmitRest vm vid venv projects hasThumb vdata).trace ∧
      (videoOnSubmit vm vid venv projects hasThumb vdata).outcome =
        (videoSubmitRest vm vid venv projects hasThumb vdata).outcome ∧
      (videoOnSubmit vm vid venv projects hasThumb vdata).outcome ≠
        Outcome.capRejected) := by
  have hpcap := projectCapCheck_err pm penv pdata hpf hpe
  have hvcap := videoCapCheck_err vm venv vdata hvf hve
  constructor
  · rcases projectOnSubmit_spec pm pid penv files pdata with ⟨h2, _⟩ | ⟨_, heq⟩
    · rw [hpcap] at h2
      cases h2
    · refine ⟨?_, ?_, ?_, projectSubmitRest_head pm pid penv files pdata⟩
      · rw [heq, hpcap]
        rfl
      · rw [heq]
      · rw [heq]
        rcases projectSubmitRest_outcome pm pid penv files pdata with ho | ho <;>
          simp [ho]
  · rcases videoOnSubmit_spec vm vid venv projects hasThumb vdata with
      ⟨h2, _⟩ | ⟨_, heq⟩
    · rw [hvcap] at h2
      cases h2
    · refine ⟨?_, ?_, ?_⟩
      · rw [heq, hvcap]
        rfl
      · rw [heq]
      · rw [heq]
        rcases videoSubmitRest_outcome vm vid venv projects hasThumb vdata with
          ho | ho <;> simp [ho]

/-- C9 witness: with the counts query throwing and every later call
succeeding, both featured submissions run to success. -/
theorem C9_witness :
    (projectOnSubmit Mode.create none errCountProjectEnv noFiles
        featuredDraft).outcome ≠ Outcome.capRejected ∧
    (videoOnSubmit Mode.create none errCountVideoEnv oneProject false
        sampleVideo).outcome ≠ Outcome.capRejected ∧
    (projectOnSubmit Mode.create none errCountProjectEnv noFiles
        featuredDraft).outcome = Outcome.success ∧
    (videoOnSubmit Mode.create none errCountVideoEnv oneProject false
        sampleVideo).outcome = Outcome.success := by
  have h := C9_theorem Mode.create none errCountProjectEnv noFiles featuredDraft
    Mode.create none errCountVideoEnv oneProject false sampleVideo rfl rfl rfl rfl
  exact ⟨h.1.2.2.1, h.2.2.2, by decide, by decide⟩

/-! ## C4 -/

/-- C4: with the draft featured and the counts query succeeding, a
reported count at (or above) the cap of 3 for the relevant kind makes
the submit abort as a cap rejection whose whole trace is the counts
query and the error toast — so before any folder creation, upload, or
create/update call — in create and edit mode alike; a reported count
below the cap never yields a cap rejection, and the project pipeline
goes on to create the folders. -/
theorem C4_theorem (pm : Mode) (pid : Option String) (penv : ProjectEnv)
    (files : StagedFiles) (pdata : ProjectFormData) (vm : Mode)
    (vid : Option String) (venv : VideoEnv) (projects : List ProjectRef)
    (hasThumb : Bool) (vdata : VideoFormData) (pc vc : FeaturedCounts)
    (hpf : pdata.featured = true) (hpc : penv.featuredCounts = Except.ok pc)
    (hvf : vdata.featured = true) (hvc : venv.featuredCounts = Except.ok vc) :
    (3 ≤ pc.projects →
      projectOnSubmit pm pid penv files pdata =
        { trace := [PEvent.getFeaturedCounts, PEvent.capErrorToast],
          outcome := Outcome.capRejected, loading := false }) ∧
    (pc.projects < 3 →
      (projectOnSubmit pm pid penv files pdata).outcome ≠ Outcome.capRejected ∧
      PEvent.createProjectFolders ∈ (projectOnSubmit pm pid penv files pdata).trace) ∧
    (3 ≤ vc.videos →
      videoOnSubmit vm vid venv projects hasThumb vdata =
        { trace := [VEvent.getFeaturedCounts, VEvent.capErrorToast],
          outcome := Outcome.capRejected, loading := false }) ∧
    (vc.videos < 3 →
      (videoOnSubmit vm vid venv projects hasThumb vdata).outcome ≠
        Outcome.capRejected) := by
  refine ⟨fun h3 => ?_, fun hlt => ?_, fun h3 => ?_, fun hlt => ?_⟩
  · have hcap := projectCapCheck_hit pm penv pdata pc hpf hpc h3
    unfold projectOnSubmit
    rw [hcap]
  · have hcap := projectCapCheck_snd_false pm penv pdata pc hpc hlt
    rcases projectOnSubmit_spec pm pid penv files pdata with ⟨h2, _⟩ | ⟨_, heq⟩
    · rw [hcap] at h2
      cases h2
    · constructor
      · rw [heq]
        rcases projectSubmitRest_outcome pm pid penv files pdata with ho | ho <;>
          simp [ho]
      · rw [heq]
        obtain ⟨r, hr⟩ := projectSubmitRest_head pm pid penv files pdata
        rw [hr]
        simp
  · have hcap := videoCapCheck_hit vm venv vdata vc hvf hvc h3
    unfold videoOnSubmit
    rw [hcap]
  · have hcap := videoCapCheck_snd_false vm venv vdata vc hvc hlt
    rcases videoOnSubmit_spec vm vid venv projects hasThumb vdata with
      ⟨h2, _⟩ | ⟨_, heq⟩
    · rw [hcap] at h2
      cases h2
    · rw [heq]
      rcases videoSubmitRest_outcome vm vid venv projects hasThumb vdata with
        ho | ho <;> simp [ho]

/-- C4 witness: at counts 3/3 both featured submissions are rejected
with the two-event trace; at counts 0/0 neither is cap-rejected and the
project run reaches the folder creation. -/
theorem C4_witness :
    projectOnSubmit Mode.create none capProjectEnv noFiles featuredDraft =
      { trace := [PEvent.getFeaturedCounts, PEvent.capErrorToast],
        outcome := Outcome.capRejected, loading := false } ∧
    videoOnSubmit Mode.create none capVideoEnv oneProject false sampleVideo =
      { trace := [VEvent.getFeaturedCounts, VEvent.capErrorToast],
        outcome := Outcome.capRejected, loading := false } ∧
    (projectOnSubmit Mode.create none okProjectEnv noFiles featuredDraft).outcome ≠
      Outcome.capRejected ∧
    PEvent.createProjectFolders ∈
      (projectOnSubmit Mode.create none okProjectEnv noFiles featuredDraft).trace ∧
    (videoOnSubmit Mode.create none okVideoEnv oneProject false
      sampleVideo).outcome ≠ Outcome.capRejected := by
  have hcap := C4_theorem Mode.create none capProjectEnv noFiles featuredDraft
    Mode.create none capVideoEnv oneProject false sampleVideo
    { projects := 3, videos := 3 } { projects := 3, videos := 3 }
    rfl rfl rfl rfl
  have hok := C4_theorem Mode.create none okProjectEnv noFiles featuredDraft
    Mode.create none okVideoEnv oneProject false sampleVideo
    { projects := 0, videos := 0 } { projects := 0, videos := 0 }
    rfl rfl rfl rfl
  exact ⟨hcap.1 (by decide), hcap.2.2.1 (by decide),
    (hok.2.1 (by decide)).1, (hok.2.1 (by decide)).2, hok.2.2.2 (by decide)⟩

/-! ## C5 -/

/-- Temporal precedence on traces: every upload event is preceded by an
earlier folder-creation event. -/
def folderBeforeUpload {ε : Type} (isFolder isUpload : ε → Bool)
    (tr : List ε) : Prop :=
  ∀ (j : Nat) (b : ε), tr[j]? = some b → isUpload b = true →
    ∃ (i : Nat) (a : ε), i < j ∧ tr[i]? = some a ∧ isFolder a = true

theorem fbu_of_no_upload {ε : Type} {isFolder isUpload : ε → Bool} {tr : List ε}
    (h : ∀ b ∈ tr, isUpload b = false) : folderBeforeUpload isFolder isUpload tr := by
  intro j b hj hub
  have hfalse := h b (List.getElem?_mem hj)
  simp [hfalse] at hub

theorem fbu_append_cons {ε : Type} (isFolder isUpload : ε → Bool)
    (pre rest : List ε) (f : ε) (hf : isFolder f = true) (hfu : isUpload f = false)
    (hpre : ∀ b ∈ pre, isUpload b = false) :
    folderBeforeUpload isFolder isUpload (pre ++ f :: rest) := by
  intro j b hj hub
  rw [List.getElem?_append] at hj
  by_cases hlt : j < pre.length
  · rw [if_pos hlt] at hj
    have hfalse := hpre b (List.getElem?_mem hj)
    simp [hfalse] at hub
  · rw [if_neg hlt] at hj
    push_neg at hlt
    by_cases hj0 : j = pre.length
    · subst hj0
      rw [Nat.sub_self, List.getElem?_cons_zero] at hj
      injection hj with hbf
      subst hbf
      simp [hfu] at hub
    · have hgt : pre.length < j := by omega
      refine ⟨pre.length, f, hgt, ?_, hf⟩
      rw [List.getElem?_append, if_neg (by omega), Nat.sub_self]
      exact List.getElem?_cons_zero

theorem videoSubmitRest_shape (mode : Mode) (id : Option String) (env : VideoEnv)
    (projects : List ProjectRef) (hasThumbnailFile : Bool) (data : VideoFormData) :
    (∃ r, (videoSubmitRest mode id env projects hasThumbnailFile data).trace =
        VEvent.createVideoFolder :: r) ∨
    (∀ b ∈ (videoSubmitRest mode id env projects hasThumbnailFile data).trace,
      isVUpload b = false) := by
  have hcu : ∀ b : VEvent, isVCreateEv b = true ∨ isVUpdateEv b = true →
      isVUpload b = false := by
    intro b hb
    cases b <;> simp_all [isVCreateEv, isVUpdateEv, isVUpload]
  rcases videoSubmitRest_spec mode id env projects hasThumbnailFile data with
    ⟨_, heq⟩ | ⟨sel, uptr, _, hu, heq⟩ |
    ⟨sel, uptr, turl, ctr, _, hu, ⟨hc, heq⟩ | ⟨hc, heq⟩⟩
  · right
    rw [heq]
    simp
  · cases hasThumbnailFile with
    | true =>
      left
      obtain ⟨r0, hr0⟩ := uploadThumbnail_head env
      have huptr : uptr = VEvent.createVideoFolder :: r0 := by
        have h1 : (uploadThumbnail env true).1 = uptr := by rw [hu]
        rw [← h1, hr0]
      exact ⟨r0, by rw [heq, huptr]⟩
    | false =>
      have h0 : uploadThumbnail env false =
          (([] : List VEvent), Except.ok (none : Option String)) := rfl
      rw [h0] at hu
      exact absurd hu (by simp)
  · cases hasThumbnailFile with
    | true =>
      left
      obtain ⟨r0, hr0⟩ := uploadThumbnail_head env
      have huptr : uptr = VEvent.createVideoFolder :: r0 := by
        have h1 : (uploadThumbnail env true).1 = uptr := by rw [hu]
        rw [← h1, hr0]
      exact ⟨r0 ++ ctr, by rw [heq, huptr, List.cons_append]⟩
    | false =>
      right
      have h0 : uploadThumbnail env false =
          (([] : List VEvent), Except.ok (none : Option String)) := rfl
      rw [h0] at hu
      have huptr : uptr = [] := by
        have := congrArg Prod.fst hu
        exact this.symm
      intro b hb
      rw [heq, huptr, List.nil_append] at hb
      have hbc : b ∈ (createOrUpdateVideo mode id env (videoData data turl)).1 := by
        rw [hc]
        exact hb
      exact hcu b (mem_createOrUpdateVideo hbc)
  · cases hasThumbnailFile with
    | true =>
      left
      obtain ⟨r0, hr0⟩ := uploadThumbnail_head env
      have huptr : uptr = VEvent.createVideoFolder :: r0 := by
        have h1 : (uploadThumbnail env true).1 = uptr := by rw [hu]
        rw [← h1, hr0]
      refine ⟨r0 ++ ctr ++ [VEvent.navigate], ?_⟩
      rw [heq, huptr]
      simp
    | false =>
      right
      have h0 : uploadThumbnail env false =
          (([] : List VEvent), Except.ok (none : Option String)) := rfl
      rw [h0] at hu
      have huptr : uptr = [] := by
        have := congrArg Prod.fst hu
        exact this.symm
      intro b hb
      rw [heq, huptr, List.nil_append, List.mem_append] at hb
      rcases hb with hb | hb
      · have hbc : b ∈ (createOrUpdateVideo mode id env (videoData data turl)).1 := by
          rw [hc]
          exact hb
        exact hcu b (mem_createOrUpdateVideo hbc)
      · simp only [List.mem_singleton] at hb
        subst hb
        rfl

/-- C5: in every execution of either submit pipeline, the remote folder
creation precedes every upload call of that submission — the project
form creates its folders before the logo, hero-image and gallery
uploads, and the video form creates the video folder before the
thumbnail upload. -/
theorem C5_theorem (pm : Mode) (pid : Option String) (penv : ProjectEnv)
    (files : StagedFiles) (pdata : ProjectFormData) (vm : Mode)
    (vid : Option String) (venv : VideoEnv) (projects : List ProjectRef)
    (hasThumb : Bool) (vdata : VideoFormData) :
    folderBeforeUpload isPFolder isPUpload
      (projectOnSubmit pm pid penv files pdata).trace ∧
    folderBeforeUpload isVFolder isVUpload
      (videoOnSubmit vm vid venv projects hasThumb vdata).trace := by
  constructor
  · rcases projectOnSubmit_spec pm pid penv files pdata with ⟨_, heq⟩ | ⟨_, heq⟩
    · rw [heq]
      apply fbu_of_no_upload
      intro b hb
      rcases mem_projectCapCheck hb with rfl | rfl <;> rfl
    · rw [heq]
      obtain ⟨r, hr⟩ := projectSubmitRest_head pm pid penv files pdata
      rw [hr]
      apply fbu_append_cons
      · rfl
      · rfl
      · intro b hb
        rcases mem_projectCapCheck hb with rfl | rfl <;> rfl
  · rcases videoOnSubmit_spec vm vid venv projects hasThumb vdata with
      ⟨_, heq⟩ | ⟨_, heq⟩
    · rw [heq]
      apply fbu_of_no_upload
      intro b hb
      rcases mem_videoCapCheck hb with rfl | rfl <;> rfl
    · rw [heq]
      rcases videoSubmitRest_shape vm vid venv projects hasThumb vdata with
        ⟨r, hr⟩ | hnone
      · rw [hr]
        apply fbu_append_cons
        · rfl
        · rfl
        · intro b hb
          rcases mem_videoCapCheck hb with rfl | rfl <;> rfl
      · apply fbu_of_no_upload
        intro b hb
        rcases List.mem_append.mp hb with hb | hb
        · rcases mem_videoCapCheck hb with rfl | rfl <;> rfl
        · exact hnone b hb

/-! ## C7: counting API calls and navigation -/

theorem countP_zero_of_mem {ε : Type} {p : ε → Bool} {tr : List ε}
    (h : ∀ b ∈ tr, p b = false) : tr.countP p = 0 :=
  List.countP_eq_zero.mpr (fun a ha => by simp [h a ha])

theorem projectCapCheck_countP (mode : Mode) (env : ProjectEnv)
    (data : ProjectFormData) (p : PEvent → Bool)
    (h1 : p PEvent.getFeaturedCounts = false) (h2 : p PEvent.capErrorToast = false) :
    (projectCapCheck mode env data).1.countP p = 0 :=
  countP_zero_of_mem (fun b hb => by
    rcases mem_projectCapCheck hb with rfl | rfl <;> assumption)

theorem uploadFiles_countP (env : ProjectEnv) (files : StagedFiles)
    {tr : List PEvent} {res : Except Unit Uploads}
    (hu : uploadFiles env files = (tr, res)) (p : PEvent → Bool)
    (h1 : p PEvent.createProjectFolders = false) (h2 : p PEvent.uploadLogo = false)
    (h3 : p PEvent.uploadHeroImage = false)
    (h4 : p PEvent.uploadProjectImages = false) :
    tr.countP p = 0 :=
  countP_zero_of_mem (fun b hb => by
    have hb2 : b ∈ (uploadFiles env files).1 := by rw [hu]; exact hb
    rcases mem_uploadFiles hb2 with rfl | rfl | rfl | rfl <;> assumption)

theorem videoCapCheck_countP (mode : Mode) (env : VideoEnv)
    (data : VideoFormData) (p : VEvent → Bool)
    (h1 : p VEvent.getFeaturedCounts = false) (h2 : p VEvent.capErrorToast = false) :
    (videoCapCheck mode env data).1.countP p = 0 :=
  countP_zero_of_mem (fun b hb => by
    rcases mem_videoCapCheck hb with rfl | rfl <;> assumption)

theorem uploadThumbnail_countP (env : VideoEnv) (hasThumbnailFile : Bool)
    {tr : List VEvent} {res : Except Unit (Option String)}
    (hu : uploadThumbnail env hasThumbnailFile = (tr, res)) (p : VEvent → Bool)
    (h1 : p VEvent.createVideoFolder = false)
    (h2 : p VEvent.uploadVideoThumbnail = false) :
    tr.countP p = 0 :=
  countP_zero_of_mem (fun b hb => by
    have hb2 : b ∈ (uploadThumbnail env hasThumbnailFile).1 := by rw [hu]; exact hb
    rcases mem_uploadThumbnail hb2 with rfl | rfl <;> assumption)

/-- Every project submit run counts its events as: nothing outside the
create-or-update segment, and that segment only when it is reached; the
count is 0 or the segment count for some upload result. -/
theorem projectOnSubmit_cu_count (mode : Mode) (id : Option String)
    (env : ProjectEnv) (files : StagedFiles) (data : ProjectFormData)
    (p : PEvent → Bool)
    (h1 : p PEvent.getFeaturedCounts = false) (h2 : p PEvent.capErrorToast = false)
    (h3 : p PEvent.createProjectFolders = false) (h4 : p PEvent.uploadLogo = false)
    (h5 : p PEvent.uploadHeroImage = false) (h6 : p PEvent.uploadProjectImages = false)
    (h7 : p PEvent.navigate = false) :
    (projectOnSubmit mode id env files data).trace.countP p = 0 ∨
    ∃ uploads, (projectOnSubmit mode id env files data).trace.countP p =
      (createOrUpdateProject mode id env (projectData data uploads)).1.countP p := by
  rcases projectOnSubmit_spec mode id env files data with ⟨_, heq⟩ | ⟨_, heq⟩
  · left
    rw [heq]
    exact projectCapCheck_countP mode env data p h1 h2
  · rw [heq]
    have hcap := projectCapCheck_countP mode env data p h1 h2
    rcases projectSubmitRest_spec mode id env files data with
      ⟨uptr, hu, heq2⟩ | ⟨uptr, uploads, ctr, hu, ⟨hc, heq2⟩ | ⟨hc, heq2⟩⟩
    · left
      rw [heq2]
      simp [List.countP_append, hcap,
        uploadFiles_countP env files hu p h3 h4 h5 h6]
    · right
      refine ⟨uploads, ?_⟩
      rw [heq2]
      have hctr : (createOrUpdateProject mode id env (projectData data uploads)).1 =
          ctr := by rw [hc]
      simp [List.countP_append, hcap,
        uploadFiles_countP env files hu p h3 h4 h5 h6, hctr]
    · right
      refine ⟨uploads, ?_⟩
      rw [heq2]
      have hctr : (createOrUpdateProject mode id env (projectData data uploads)).1 =
          ctr := by rw [hc]
      simp [List.countP_append, hcap,
        uploadFiles_countP env files hu p h3 h4 h5 h6, hctr, List.countP_cons,
        List.countP_nil, h7]

/-- On success the project submit run counts its events exactly as the
create-or-update segment does. -/
theorem projectOnSubmit_success_count (mode : Mode) (id : Option String)
    (env : ProjectEnv) (files : StagedFiles) (data : ProjectFormData)
    (p : PEvent → Bool)
    (h1 : p PEvent.getFeaturedCounts = false) (h2 : p PEvent.capErrorToast = false)
    (h3 : p PEvent.createProjectFolders = false) (h4 : p PEvent.uploadLogo = false)
    (h5 : p PEvent.uploadHeroImage = false) (h6 : p PEvent.uploadProjectImages = false)
    (h7 : p PEvent.navigate = false)
    (hsucc : (projectOnSubmit mode id env files data).outcome = Outcome.success) :
    ∃ uploads, (projectOnSubmit mode id env files data).trace.countP p =
      (createOrUpdateProject mode id env (projectData data uploads)).1.countP p := by
  rcases projectOnSubmit_spec mode id env files data with ⟨_, heq⟩ | ⟨_, heq⟩
  · rw [heq] at hsucc
    cases hsucc
  · rw [heq] at hsucc ⊢
    have hcap := projectCapCheck_countP mode env data p h1 h2
    rcases projectSubmitRest_spec mode id env files data with
      ⟨uptr, hu, heq2⟩ | ⟨uptr, uploads, ctr, hu, ⟨hc, heq2⟩ | ⟨hc, heq2⟩⟩
    · rw [heq2] at hsucc
      cases hsucc
    · rw [heq2] at hsucc
      cases hsucc
    · refine ⟨uploads, ?_⟩
      rw [heq2]
      have hctr : (createOrUpdateProject mode id env (projectData data uploads)).1 =
          ctr := by rw [hc]
      simp [List.countP_append, hcap,
        uploadFiles_countP env files hu p h3 h4 h5 h6, hctr, List.countP_cons,
        List.countP_nil, h7]

/-- Navigation happens in a project submit run exactly when the run
succeeds. -/
theorem projectOnSubmit_navigate (mode : Mode) (id : Option String)
    (env : ProjectEnv) (files : StagedFiles) (data : ProjectFormData) :
    (PEvent.navigate ∈ (projectOnSubmit mode id env files data).trace ↔
      (projectOnSubmit mode id env files data).outcome = Outcome.success) := by
  have hnavcap : PEvent.navigate ∉ (projectCapCheck mode env data).1 := by
    intro hmem
    rcases mem_projectCapCheck hmem with h | h <;> cases h
  rcases projectOnSubmit_spec mode id env files data with ⟨_, heq⟩ | ⟨_, heq⟩
  · rw [heq]
    constructor
    · intro hmem
      exact absurd hmem hnavcap
    · intro ho
      cases ho
  · rw [heq]
    simp only [List.mem_append]
    rcases projectSubmitRest_spec mode id env files data with
      ⟨uptr, hu, heq2⟩ | ⟨uptr, uploads, ctr, hu, ⟨hc, heq2⟩ | ⟨hc, heq2⟩⟩
    · rw [heq2]
      have hnavup : PEvent.navigate ∉ uptr := by
        intro hmem
        have hb2 : PEvent.navigate ∈ (uploadFiles env files).1 := by
          rw [hu]; exact hmem
        rcases mem_uploadFiles hb2 with h | h | h | h <;> cases h
      constructor
      · rintro (hmem | hmem)
        · exact absurd hmem hnavcap
        · exact absurd hmem hnavup
      · intro ho
        cases ho
    · rw [heq2]
      have hnavup : PEvent.navigate ∉ uptr := by
        intro hmem
        have hb2 : PEvent.navigate ∈ (uploadFiles env files).1 := by
          rw [hu]; exact hmem
        rcases mem_uploadFiles hb2 with h | h | h | h <;> cases h
      have hnavctr : PEvent.navigate ∉ ctr := by
        intro hmem
        have hb2 : PEvent.navigate ∈
            (createOrUpdateProject mode id env (projectData data uploads)).1 := by
          rw [hc]; exact hmem
        rcases mem_createOrUpdateProject hb2 with h | h <;> cases h
      constructor
      · rintro (hmem | hmem)
        · exact absurd hmem hnavcap
        · rcases List.mem_append.mp hmem with hmem | hmem
          · exact absurd hmem hnavup
          · exact absurd hmem hnavctr
      · intro ho
        cases ho
    · rw [heq2]
      constructor
      · intro _
        rfl
      · intro _
        right
        simp

/-- The mirror lemmas for the video pipeline. -/
theorem videoOnSubmit_cu_count (mode : Mode) (id : Option String)
    (env : VideoEnv) (projects : List ProjectRef) (hasThumb : Bool)
    (data : VideoFormData) (p : VEvent → Bool)
    (h1 : p VEvent.getFeaturedCounts = false) (h2 : p VEvent.capErrorToast = false)
    (h3 : p VEvent.createVideoFolder = false)
    (h4 : p VEvent.uploadVideoThumbnail = false) (h5 : p VEvent.navigate = false) :
    (videoOnSubmit mode id env projects hasThumb data).trace.countP p = 0 ∨
    ∃ turl, (videoOnSubmit mode id env projects hasThumb data).trace.countP p =
      (createOrUpdateVideo mode id env (videoData data turl)).1.countP p := by
  rcases videoOnSubmit_spec mode id env projects hasThumb data with
    ⟨_, heq⟩ | ⟨_, heq⟩
  · left
    rw [heq]
    exact videoCapCheck_countP mode env data p h1 h2
  · rw [heq]
    have hcap := videoCapCheck_countP mode env data p h1 h2
    rcases videoSubmitRest_spec mode id env projects hasThumb data with
      ⟨_, heq2⟩ | ⟨sel, uptr, _, hu, heq2⟩ |
      ⟨sel, uptr, turl, ctr, _, hu, ⟨hc, heq2⟩ | ⟨hc, heq2⟩⟩
    · left
      rw [heq2]
      simp [List.countP_append, hcap, List.countP_nil]
    · left
      rw [heq2]
      simp [List.countP_append, hcap,
        uploadThumbnail_countP env hasThumb hu p h3 h4]
    · right
      refine ⟨turl, ?_⟩
      rw [heq2]
      have hctr : (createOrUpdateVideo mode id env (videoData data turl)).1 =
          ctr := by rw [hc]
      simp [List.countP_append, hcap,
        uploadThumbnail_countP env hasThumb hu p h3 h4, hctr]
    · right
      refine ⟨turl, ?_⟩
      rw [heq2]
      have hctr : (createOrUpdateVideo mode id env (videoData data turl)).1 =
          ctr := by rw [hc]
      simp [List.countP_append, hcap,
        uploadThumbnail_countP env hasThumb hu p h3 h4, hctr, List.countP_cons,
        List.countP_nil, h5]

theorem videoOnSubmit_success_count (mode : Mode) (id : Option String)
    (env : VideoEnv) (projects : List ProjectRef) (hasThumb : Bool)
    (data : VideoFormData) (p : VEvent → Bool)
    (h1 : p VEvent.getFeaturedCounts = false) (h2 : p VEvent.capErrorToast = false)
    (h3 : p VEvent.createVideoFolder = false)
    (h4 : p VEvent.uploadVideoThumbnail = false) (h5 : p VEvent.navigate = false)
    (hsucc : (videoOnSubmit mode id env projects hasThumb data).outcome =
      Outcome.success) :
    ∃ turl, (videoOnSubmit mode id env projects hasThumb data).trace.countP p =
      (createOrUpdateVideo mode id env (videoData data turl)).1.countP p := by
  rcases videoOnSubmit_spec mode id env projects hasThumb data with
    ⟨_, heq⟩ | ⟨_, heq⟩
  · rw [heq] at hsucc
    cases hsucc
  · rw [heq] at hsucc ⊢
    have hcap := videoCapCheck_countP mode env data p h1 h2
    rcases videoSubmitRest_spec mode id env projects hasThumb data with
      ⟨_, heq2⟩ | ⟨sel, uptr, _, hu, heq2⟩ |
      ⟨sel, uptr, turl, ctr, _, hu, ⟨hc, heq2⟩ | ⟨hc, heq2⟩⟩
    · rw [heq2] at hsucc
      cases hsucc
    · rw [heq2] at hsucc
      cases hsucc
    · rw [heq2] at hsucc
      cases hsucc
    · refine ⟨turl, ?_⟩
      rw [heq2]
      have hctr : (createOrUpdateVideo mode id env (videoData data turl)).1 =
          ctr := by rw [hc]
      simp [List.countP_append, hcap,
        uploadThumbnail_countP env hasThumb hu p h3 h4, hctr, List.countP_cons,
        List.countP_nil, h5]

theorem videoOnSubmit_navigate (mode : Mode) (id : Option String)
    (env : VideoEnv) (projects : List ProjectRef) (hasThumb : Bool)
    (data : VideoFormData) :
    (VEvent.navigate ∈ (videoOnSubmit mode id env projects hasThumb data).trace ↔
      (videoOnSubmit mode id env projects hasThumb data).outcome =
        Outcome.success) := by
  have hnavcap : VEvent.navigate ∉ (videoCapCheck mode env data).1 := by
    intro hmem
    rcases mem_videoCapCheck hmem with h | h <;> cases h
  rcases videoOnSubmit_spec mode id env projects hasThumb data with
    ⟨_, heq⟩ | ⟨_, heq⟩
  · rw [heq]
    constructor
    · intro hmem
      exact absurd hmem hnavcap
    · intro ho
      cases ho
  · rw [heq]
    simp only [List.mem_append]
    rcases videoSubmitRest_spec mode id env projects hasThumb data with
      ⟨_, heq2⟩ | ⟨sel, uptr, _, hu, heq2⟩ |
      ⟨sel, uptr, turl, ctr, _, hu, ⟨hc, heq2⟩ | ⟨hc, heq2⟩⟩
    · rw [heq2]
      constructor
      · rintro (hmem | hmem)
        · exact absurd hmem hnavcap
        · cases hmem
      · intro ho
        cases ho
    · rw [heq2]
      have hnavup : VEvent.navigate ∉ uptr := by
        intro hmem
        have hb2 : VEvent.navigate ∈ (uploadThumbnail env hasThumb).1 := by
          rw [hu]; exact hmem
        rcases mem_uploadThumbnail hb2 with h | h <;> cases h
      constructor
      · rintro (hmem | hmem)
        · exact absurd hmem hnavcap
        · exact absurd hmem hnavup
      · intro ho
        cases ho
    · rw [heq2]
      have hnavup : VEvent.navigate ∉ uptr := by
        intro hmem
        have hb2 : VEvent.navigate ∈ (uploadThumbnail env hasThumb).1 := by
          rw [hu]; exact hmem
        rcases mem_uploadThumbnail hb2 with h | h <;> cases h
      have hnavctr : VEvent.navigate ∉ ctr := by
        intro hmem
        have hb2 : VEvent.navigate ∈
            (createOrUpdateVideo mode id env (videoData data turl)).1 := by
          rw [hc]; exact hmem
        rcases mem_createOrUpdateVideo hb2 with h | h <;> cases h
      constructor
      · rintro (hmem | hmem)
        · exact absurd hmem hnavcap
        · rcases List.mem_append.mp hmem with hmem | hmem
          · exact absurd hmem hnavup
          · exact absurd hmem hnavctr
      · intro ho
        cases ho
    · rw [heq2]
      constructor
      · intro _
        rfl
      · intro _
        right
        simp

/-- C7: for both forms, a submit in edit mode never issues more than one
update call and no create call, and on success issues exactly one update
call carrying the existing entity id; a submit in create mode never
issues more than one create call and no update call, and on success
issues exactly one create call; and for every mode the navigation to the
collection view happens exactly when the submission succeeds — never
when a step throws or the cap check rejects. -/
theorem C7_theorem (penv : ProjectEnv) (files : StagedFiles)
    (pdata : ProjectFormData) (pid : Option String) (i : String)
    (venv : VideoEnv) (projects : List ProjectRef) (hasThumb : Bool)
    (vdata : VideoFormData) (vidc : Option String) (j : String) :
    ((projectOnSubmit Mode.edit (some i) penv files pdata).trace.countP
        isPUpdateEv ≤ 1 ∧
      (projectOnSubmit Mode.edit (some i) penv files pdata).trace.countP
        isPCreateEv = 0 ∧
      ((projectOnSubmit Mode.edit (some i) penv files pdata).outcome =
          Outcome.success →
        (projectOnSubmit Mode.edit (some i) penv files pdata).trace.countP
          (isPUpdateFor i) = 1) ∧
      (PEvent.navigate ∈ (projectOnSubmit Mode.edit (some i) penv files
          pdata).trace ↔
        (projectOnSubmit Mode.edit (some i) penv files pdata).outcome =
          Outcome.success)) ∧
    ((projectOnSubmit Mode.create pid penv files pdata).trace.countP
        isPCreateEv ≤ 1 ∧
      (projectOnSubmit Mode.create pid penv files pdata).trace.countP
        isPUpdateEv = 0 ∧
      ((projectOnSubmit Mode.create pid penv files pdata).outcome =
          Outcome.success →
        (projectOnSubmit Mode.create pid penv files pdata).trace.countP
          isPCreateEv = 1) ∧
      (PEvent.navigate ∈ (projectOnSubmit Mode.create pid penv files
          pdata).trace ↔
        (projectOnSubmit Mode.create pid penv files pdata).outcome =
          Outcome.success)) ∧
    ((videoOnSubmit Mode.edit (some j) venv projects hasThumb
        vdata).trace.countP isVUpdateEv ≤ 1 ∧
      (videoOnSubmit Mode.edit (some j) venv projects hasThumb
        vdata).trace.countP isVCreateEv = 0 ∧
      ((videoOnSubmit Mode.edit (some j) venv projects hasThumb
          vdata).outcome = Outcome.success →
        (videoOnSubmit Mode.edit (some j) venv projects hasThumb
          vdata).trace.countP (isVUpdateFor j) = 1) ∧
      (VEvent.navigate ∈ (videoOnSubmit Mode.edit (some j) venv projects
          hasThumb vdata).trace ↔
        (videoOnSubmit Mode.edit (some j) venv projects hasThumb
          vdata).outcome = Outcome.success)) ∧
    ((videoOnSubmit Mode.create vidc venv projects hasThumb
        vdata).trace.countP isVCreateEv ≤ 1 ∧
      (videoOnSubmit Mode.create vidc venv projects hasThumb
        vdata).trace.countP isVUpdateEv = 0 ∧
      ((videoOnSubmit Mode.create vidc venv projects hasThumb
          vdata).outcome = Outcome.success →
        (videoOnSubmit Mode.create vidc venv projects hasThumb
          vdata).trace.countP isVCreateEv = 1) ∧
      (VEvent.navigate ∈ (videoOnSubmit Mode.create vidc venv projects
          hasThumb vdata).trace ↔
        (videoOnSubmit Mode.create vidc venv projects hasThumb
          vdata).outcome = Outcome.success)) := by
  refine ⟨⟨?_, ?_, ?_, projectOnSubmit_navigate Mode.edit (some i) penv files pdata⟩,
    ⟨?_, ?_, ?_, projectOnSubmit_navigate Mode.create pid penv files pdata⟩,
    ⟨?_, ?_, ?_, videoOnSubmit_navigate Mode.edit (some j) venv projects hasThumb vdata⟩,
    ⟨?_, ?_, ?_, videoOnSubmit_navigate Mode.create vidc venv projects hasThumb vdata⟩⟩
  · rcases projectOnSubmit_cu_count Mode.edit (some i) penv files pdata isPUpdateEv
      rfl rfl rfl rfl rfl rfl rfl with h | ⟨u, h⟩
    · rw [h]
      omega
    · rw [h]
      simp [createOrUpdateProject, isPUpdateEv]
  · rcases projectOnSubmit_cu_count Mode.edit (some i) penv files pdata isPCreateEv
      rfl rfl rfl rfl rfl rfl rfl with h | ⟨u, h⟩
    · exact h
    · rw [h]
      simp [createOrUpdateProject, isPCreateEv]
  · intro hs
    obtain ⟨u, h⟩ := projectOnSubmit_success_count Mode.edit (some i) penv files
      pdata (isPUpdateFor i) rfl rfl rfl rfl rfl rfl rfl hs
    rw [h]
    simp [createOrUpdateProject, isPUpdateFor]
  · rcases projectOnSubmit_cu_count Mode.create pid penv files pdata isPCreateEv
      rfl rfl rfl rfl rfl rfl rfl with h | ⟨u, h⟩
    · rw [h]
      omega
    · rw [h]
      simp [createOrUpdateProject, isPCreateEv]
  · rcases projectOnSubmit_cu_count Mode.create pid penv files pdata isPUpdateEv
      rfl rfl rfl rfl rfl rfl rfl with h | ⟨u, h⟩
    · exact h
    · rw [h]
      simp [createOrUpdateProject, isPUpdateEv]
  · intro hs
    obtain ⟨u, h⟩ := projectOnSubmit_success_count Mode.create pid penv files
      pdata isPCreateEv rfl rfl rfl rfl rfl rfl rfl hs
    rw [h]
    simp [createOrUpdateProject, isPCreateEv]
  · rcases videoOnSubmit_cu_count Mode.edit (some j) venv projects hasThumb vdata
      isVUpdateEv rfl rfl rfl rfl rfl with h | ⟨u, h⟩
    · rw [h]
      omega
    · rw [h]
      simp [createOrUpdateVideo, isVUpdateEv]
  · rcases videoOnSubmit_cu_count Mode.edit (some j) venv projects hasThumb vdata
      isVCreateEv rfl rfl rfl rfl rfl with h | ⟨u, h⟩
    · exact h
    · rw [h]
      simp [createOrUpdateVideo, isVCreateEv]
  · intro hs
    obtain ⟨u, h⟩ := videoOnSubmit_success_count Mode.edit (some j) venv projects
      hasThumb vdata (isVUpdateFor j) rfl rfl rfl rfl rfl hs
    rw [h]
    simp [createOrUpdateVideo, isVUpdateFor]
  · rcases videoOnSubmit_cu_count Mode.create vidc venv projects hasThumb vdata
      isVCreateEv rfl rfl rfl rfl rfl with h | ⟨u, h⟩
    · rw [h]
      omega
    · rw [h]
      simp [createOrUpdateVideo, isVCreateEv]
  · rcases videoOnSubmit_cu_count Mode.create vidc venv projects hasThumb vdata
      isVUpdateEv rfl rfl rfl rfl rfl with h | ⟨u, h⟩
    · exact h
    · rw [h]
      simp [createOrUpdateVideo, isVUpdateEv]
  · intro hs
    obtain ⟨u, h⟩ := videoOnSubmit_success_count Mode.create vidc venv projects
      hasThumb vdata isVCreateEv rfl rfl rfl rfl rfl hs
    rw [h]
    simp [createOrUpdateVideo, isVCreateEv]

/-- C7 witness: concrete successful runs — an edit run counts exactly
one update call carrying the route id, a create run exactly one create
call, and both navigate. -/
theorem C7_witness :
    (projectOnSubmit Mode.edit (some "proj-1") okProjectEnv noFiles
      scenarioDraft).outcome = Outcome.success ∧
    (projectOnSubmit Mode.edit (some "proj-1") okProjectEnv noFiles
      scenarioDraft).trace.countP (isPUpdateFor "proj-1") = 1 ∧
    (projectOnSubmit Mode.create none okProjectEnv noFiles
      scenarioDraft).trace.countP isPCreateEv = 1 ∧
    (PEvent.navigate ∈ (projectOnSubmit Mode.create none okProjectEnv noFiles
      scenarioDraft).trace) ∧
    (videoOnSubmit Mode.edit (some "vid-1") okVideoEnv oneProject false
      sampleVideo).trace.countP (isVUpdateFor "vid-1") = 1 ∧
    (videoOnSubmit Mode.create none okVideoEnv oneProject false
      sampleVideo).trace.countP isVCreateEv = 1 := by
  have h := C7_theorem okProjectEnv noFiles scenarioDraft none "proj-1"
    okVideoEnv oneProject false sampleVideo none "vid-1"
  exact ⟨by decide, h.1.2.2.1 (by decide), h.2.1.2.2.1 (by decide),
    (h.2.1.2.2.2).mpr (by decide), h.2.2.1.2.2.1 (by decide),
    h.2.2.2.2.2.1 (by decide)⟩

end SuiAdmin
